import Mathlib

/-!
Shallow embedding of the NyayaSetu grievance/relief application core logic:
the fund-allocation bookkeeping (FundAllocation model), the fund dashboard
statistics (fundController.getFundStats), the document classifier and
verifier (documentVerificationService), and the upload gate
(documentController.uploadDocument).

Amounts are JavaScript numbers; they are modelled as rationals, and the
arithmetic identities proved below hold exactly at that level of abstraction.
Asynchronous external effects (Mongoose queries, file storage, OCR calls)
are passed in as explicit parameters or explicit state.
-/

namespace NyayaSetu

/-- Entry of the linkedCases array of a FundAllocation document. -/
structure LinkedCase where
  caseId : String
  grievanceId : String
  amountDisbursed : ℚ
  disbursedAt : Nat
deriving DecidableEq, Repr

/-- Relevant fields of the FundAllocation Mongoose document
(models/FundAllocation.js). Dates are modelled as Nat timestamps. -/
structure FundAllocation where
  source : String
  sanctionNumber : String
  sanctionedAmount : ℚ
  amountUtilized : ℚ
  amountRemaining : ℚ
  allocatedToOfficer : Option String
  linkedCases : List LinkedCase
  status : String
  district : String
  state : String
  updatedAt : Nat
deriving DecidableEq, Repr

/-- Embedding of the fundAllocationSchema.pre save hook: recompute
amountRemaining, derive status from utilization, and stamp updatedAt.
Every Mongoose save of the document runs this hook first. -/
def fundAllocationPreSave (now : Nat) (a : FundAllocation) : FundAllocation :=
  let remaining := a.sanctionedAmount - a.amountUtilized
  let status :=
    if a.amountUtilized = 0 then
      if a.allocatedToOfficer.isSome then "allocated" else "sanctioned"
    else if remaining > 0 then "partially_utilized"
    else "fully_utilized"
  { a with amountRemaining := remaining, status := status, updatedAt := now }

/-- Embedding of the utilizeFund instance method: reject when the requested
amount exceeds the stored amountRemaining, otherwise add to amountUtilized,
push one linkedCases entry, and save (which runs the pre-save hook). A
thrown Error is modelled as Except.error carrying the message; the second
component is the state of the document after the call (the throw happens
before any mutation, so on error the document is returned as received). -/
def utilizeFund (a : FundAllocation) (caseId grievanceId : String)
    (amount : ℚ) (now : Nat) : Except String Unit × FundAllocation :=
  if amount > a.amountRemaining then
    (Except.error "Insufficient funds in this allocation", a)
  else
    (Except.ok (), fundAllocationPreSave now
      { a with
        amountUtilized := a.amountUtilized + amount,
        linkedCases := a.linkedCases ++
          [{ caseId := caseId, grievanceId := grievanceId,
             amountDisbursed := amount, disbursedAt := now }] })

/-- Result record of the fundSource part of getFundStats
(fundController.js). -/
structure FundStats where
  totalSanctioned : ℚ
  totalAllocatedToOfficers : ℚ
  totalUtilized : ℚ
  totalRemaining : ℚ
  utilizationPercentage : ℚ
  allocationsCount : Nat
deriving DecidableEq, Repr

/-- District/state query filter used by getFundStats: a FundAllocation
matches when each present query field equals the corresponding field. -/
def matchesFilter (district state : Option String) (a : FundAllocation) : Bool :=
  (match district with
   | some d => a.district == d
   | none => true) &&
  (match state with
   | some s => a.state == s
   | none => true)

/-- Rounding of JavaScript Number.prototype.toFixed with two fraction
digits: nearest value with two decimals, ties resolved to the larger
numerator. -/
def toFixed2 (q : ℚ) : ℚ := (⌊q * 100 + 1 / 2⌋ : ℚ) / 100

/-- Embedding of the fundSource aggregate computed by getFundStats: it
filters the allocations by the district/state query, folds the three sums
with plain reduce calls starting at 0, and derives the utilization
percentage. -/
def getFundStats (district state : Option String)
    (all : List FundAllocation) : FundStats :=
  let allocations := all.filter (matchesFilter district state)
  let totalSanctioned := allocations.foldl (fun s a => s + a.sanctionedAmount) 0
  let totalUtilized := allocations.foldl (fun s a => s + a.amountUtilized) 0
  let totalRemaining := allocations.foldl (fun s a => s + a.amountRemaining) 0
  { totalSanctioned := totalSanctioned
    totalAllocatedToOfficers := totalSanctioned
    totalUtilized := totalUtilized
    totalRemaining := totalRemaining
    utilizationPercentage :=
      if totalSanctioned > 0 then toFixed2 (totalUtilized / totalSanctioned * 100)
      else 0
    allocationsCount := allocations.length }

/-- Test whether the pattern occurs at the head of the text, character by
character. -/
def matchesAt : List Char → List Char → Bool
  | [], _ => true
  | _ :: _, [] => false
  | p :: ps, t :: ts => p == t && matchesAt ps ts

/-- Test whether the pattern occurs anywhere in the text. -/
def containsChars (pat : List Char) : List Char → Bool
  | [] => pat.isEmpty
  | c :: ts => matchesAt pat (c :: ts) || containsChars pat ts

/-- Embedding of the JavaScript String.prototype.includes substring test:
text.includes(pat). -/
def strIncludes (text pat : String) : Bool := containsChars pat.toList text.toList

/-- Embedding of String.prototype.toLowerCase restricted to the characters
occurring in this service: ASCII letters are lowered, everything else
(digits, punctuation, Devanagari) is unchanged. -/
def lowerAscii (s : String) : String := String.mk (s.toList.map Char.toLower)

/-- Whitespace characters stripped by String.prototype.trim, restricted to
the ones producible by the text extractors. -/
def jsWhitespace (c : Char) : Bool := c == ' ' || c == '\t' || c == '\n' || c == '\r'

/-- Embedding of String.prototype.trim: strip whitespace from both ends. -/
def jsTrim (s : String) : String :=
  String.mk (((s.toList.dropWhile jsWhitespace).reverse.dropWhile jsWhitespace).reverse)

/-- Keyword configuration of one document type in DOCUMENT_KEYWORDS. -/
structure DocTypeConfig where
  required : List String
  supportive : List String
  minConfidenceScore : ℚ
deriving DecidableEq, Repr

/-- Keyword table of the document verification service, in source order
(documentVerificationService.js). Any one required keyword is enough for a
type to be considered at all; supportive keywords only add weight. -/
def DOCUMENT_KEYWORDS : List (String × DocTypeConfig) :=
  [("fir",
    { required :=
        ["first information report", "form if1", "integrated form",
         "section 154 cr.p.c", "f.i.r. no", "f.i.r no", "fir no",
         "occurrence of offence", "complainant / information",
         "complainant/information", "general diary reference",
         "officer-in-charge, police station",
         "signature of the officer-in-charge", "informant free of cost",
         "investigation transferred to p.s", "action taken",
         "commission of offence", "date & time of despatch to the court"],
      supportive :=
        ["p.s.", "police station", "dist.", "district", "act", "sections",
         "ipc", "bns", "crpc", "accused", "complainant", "informant",
         "type of information", "written", "oral", "place of occurrence",
         "beat no", "father\x27s name", "husband\x27s name", "properties stolen",
         "inquest report", "f.i.r. contents", "rank", "thumb-impression"],
      minConfidenceScore := 10 / 100 }),
   ("casteCertificate",
    { required :=
        ["caste certificate", "caste certificate (part-a)", "परिशिष्ट – अ",
         "परिशिष्ट-अ", "जाति प्रमाण पत्र", "form - 8", "form 8",
         "socially and educationally backward class", "sebc",
         "non-creamy layer certificate",
         "non-creamy layer certificate (part-b)", "creamy-layer", "sebc act",
         "this is to certify that", "belongs to the", "state of maharashtra",
         "sub divisional officer", "उप विभागीय अधिकारी",
         "other backward class", "scheduled caste", "scheduled tribe",
         "de-notified tribe", "vimukt jati", "nomadic tribe",
         "special backward category", "government resolution",
         "social justice & special assistance", "cbc-10/2013",
         "government of maharashtra gazette", "outward no", "reg./case no",
         "certificate sr. no", "mahaonline.gov.in",
         "www.mahaonline.gov.in/verify", "digitally signed",
         "information technology (it) act", "legally valid", "verify visit",
         "20 digit barcode number"],
      supportive :=
        ["documents verified", "school leaving certificate",
         "income certificate", "tahsildar", "photo id", "ration card",
         "electoral photo id", "tehsil", "taluka", "district", "village",
         "ordinarily resides", "ordinarily reside", "family", "son of",
         "daughter of", "amended from time to time", "recognised as",
         "place", "date", "seal of office", "with the seal of office",
         "printed by", "omtid", "vle name", "sdo", "dy.col",
         "valid for the period", "date of issue", "signature valid"],
      minConfidenceScore := 8 / 100 }),
   ("aadhaar",
    { required := ["aadhaar", "आधार", "unique identification", "uidai"],
      supportive := ["government of india", "address", "dob", "male",
                     "female", "vid"],
      minConfidenceScore := 15 / 100 }),
   ("medical",
    { required := ["medical certificate", "medical report", "hospital",
                   "doctor", "diagnosis"],
      supportive := ["patient", "treatment", "injury", "prescription",
                     "clinical"],
      minConfidenceScore := 15 / 100 }),
   ("bankPassbook",
    { required := ["bank passbook", "account statement", "bank account",
                   "savings account"],
      supportive := ["ifsc", "branch", "balance", "transaction", "deposit",
                     "withdrawal"],
      minConfidenceScore := 15 / 100 }),
   ("marriageCertificate",
    { required :=
        ["certificate of marriage", "marriage certificate",
         "marriage registration", "compulsory marriage registration",
         "certified that a marriage between", "marriage between",
         "duly registered", "solemnized at", "date of marriage",
         "date of registration", "groom", "bride", "husband", "wife",
         "marriage officer", "marriage registrar", "signature of groom",
         "signature of bride", "witness"],
      supportive :=
        ["son of", "daughter of", "father\x27s name", "mother\x27s name",
         "age of the groom", "age of the bride", "born on", "date of birth",
         "resident at", "address of the groom", "address of the bride",
         "office of marriage officer", "district magistrate",
         "particulars furnished", "delhi", "mumbai", "maharashtra",
         "digitally signed", "information technology act", "order-2014",
         "order 2014", "revenue department"],
      minConfidenceScore := 8 / 100 }),
   ("scstCertificate",
    { required :=
        ["scheduled caste", "scheduled tribe", "form of caste certificate",
         "शेड्यूल्ड कास्ट", "अनुसूचित जाति", "अनुसूचित जनजाति",
         "presidential order", "constitution (scheduled castes) order",
         "constitution (scheduled tribes) order", "this is to certify that",
         "belongs to the", "recognised as a scheduled caste",
         "recognised as a scheduled tribe",
         "scheduled caste and scheduled tribes lists",
         "scheduled castes union territories order",
         "scheduled tribes union territories order", "reorganisation act",
         "himachal pradesh act", "north eastern area",
         "jammu and kashmir scheduled castes order",
         "andaman and nicobar islands", "dadra and nagar haveli",
         "pondicherry", "uttar pradesh order", "goa daman and diu",
         "nagaland", "sikkim"],
      supportive :=
        ["son of", "daughter of", "wife of", "shri", "smt", "kumari",
         "village", "town", "district", "division", "state",
         "union territory", "caste", "tribe", "community", "migrated from",
         "administration", "issued on the basis", "district magistrate",
         "collector", "tehsildar", "certificate issued to"],
      minConfidenceScore := 8 / 100 }),
   ("otherCasteCertificate",
    { required :=
        ["socially and educationally backward class", "sebc", "obc",
         "other backward class", "backward class",
         "caste certificate (part-a)", "caste certificate part-a",
         "non-creamy layer certificate",
         "non-creamy layer certificate (part-b)", "non-creamy layer",
         "creamy-layer", "परिशिष्ट – अ", "परिशिष्ट-अ",
         "this is to certify that", "belongs to the", "state of maharashtra",
         "government resolution", "social justice", "special assistance",
         "maratha", "kunbi", "vimukt jati", "de-notified tribe",
         "nomadic tribe", "special backward category"],
      supportive :=
        ["son of", "daughter of", "village", "taluka", "district", "nanded",
         "pune", "government of maharashtra gazette",
         "maharashtra state reservation", "cbc-10/2013", "pra.kra", "mavak",
         "vjnt", "vjnt-1", "sub divisional officer", "sdo", "dy.col",
         "outward no", "reg./case no", "mahaonline.gov.in",
         "digitally signed", "valid for the period", "date of issue",
         "documents verified", "school leaving certificate",
         "income certificate", "tahsildar", "photo id"],
      minConfidenceScore := 8 / 100 }),
   ("addressProof",
    { required :=
        ["electricity bill", "electric bill", "water bill", "property tax",
         "gas connection", "gas bill", "proof of address", "utility bill",
         "consumer number", "bill number", "meter number",
         "service connection"],
      supportive :=
        ["billing date", "due date", "amount due", "units consumed",
         "reading", "previous reading", "current reading", "residential",
         "domestic", "consumer name", "address", "flat", "society", "plot",
         "ward", "mahanagar gas", "msedcl", "tata power", "adani",
         "municipal corporation", "nagar palika"],
      minConfidenceScore := 10 / 100 })]

/-- Result record of classifyDocument. -/
structure ClassifyResult where
  detectedType : String
  confidence : ℚ
  allScores : List (String × ℚ)
  matchedKeywords : List String
deriving DecidableEq, Repr

/-- Required keywords of a type whose lowercased form occurs in the text,
in list order. -/
def requiredMatched (text : String) (cfg : DocTypeConfig) : List String :=
  cfg.required.filter (fun k => strIncludes text (lowerAscii k))

/-- Supportive keywords of a type whose lowercased form occurs in the
text, in list order. -/
def supportiveMatched (text : String) (cfg : DocTypeConfig) : List String :=
  cfg.supportive.filter (fun k => strIncludes text (lowerAscii k))

/-- Score-to-confidence computation of the classification loop: required
matches weigh 3, supportive matches weigh 1, the confidence is the score
over the maximal score, and the entry stored in scores is forced to 0 when
no required keyword matched. -/
def typeScore (text : String) (cfg : DocTypeConfig) : ℚ :=
  let score : ℚ := 3 * (requiredMatched text cfg).length +
    (supportiveMatched text cfg).length
  let maxScore : ℚ := 3 * cfg.required.length + cfg.supportive.length
  let confidence := if maxScore > 0 then score / maxScore else 0
  if (requiredMatched text cfg).length > 0 then confidence else 0

/-- Confidence of one document type as the specification claim words it:
3 times the number of required keywords contained in the text plus 1 times
the number of supportive keywords contained in the text, divided by three
times the required count plus the supportive count, forced to 0 when no
required keyword matched. Stated independently of typeScore so the two can
be compared. -/
def specConfidence (text : String) (cfg : DocTypeConfig) : ℚ :=
  if (cfg.required.filter (fun k => strIncludes text (lowerAscii k))).length = 0 then 0
  else
    (3 * (cfg.required.filter (fun k => strIncludes text (lowerAscii k))).length +
        (cfg.supportive.filter (fun k => strIncludes text (lowerAscii k))).length : ℚ) /
      (3 * cfg.required.length + cfg.supportive.length)

/-- Scores object built by the classification loop: one entry per type of
DOCUMENT_KEYWORDS, in source order. -/
def classifyScores (text : String) : List (String × ℚ) :=
  DOCUMENT_KEYWORDS.map (fun p => (p.1, typeScore text p.2))

/-- Final sweep of the classification: keep the strictly greatest score,
starting from the pair (unknown, 0). -/
def classifyBest (text : String) : String × ℚ :=
  (classifyScores text).foldl
    (fun acc p => if p.2 > acc.2 then p else acc) ("unknown", 0)

/-- Embedding of classifyDocument: empty or whitespace-only text yields
the unknown result; otherwise score every type and return the
strictly-greatest entry of the sweep together with the score list and the
matched keywords of the winning type. -/
def classifyDocument (text : String) : ClassifyResult :=
  if (jsTrim text).length = 0 then
    { detectedType := "unknown", confidence := 0, allScores := [],
      matchedKeywords := [] }
  else
    { detectedType := (classifyBest text).1, confidence := (classifyBest text).2,
      allScores := classifyScores text,
      matchedKeywords :=
        match DOCUMENT_KEYWORDS.find? (fun p => p.1 == (classifyBest text).1) with
        | some p => requiredMatched text p.2 ++ supportiveMatched text p.2
        | none => [] }

/-- Normalization applied to document type names before comparison:
lowercase, then delete every underscore and hyphen. -/
def normalizeType (s : String) : String :=
  String.mk ((lowerAscii s).toList.filter (fun c => !(c == '_' || c == '-')))

/-- Alias table used by verifyDocumentType for flexible matching of the
normalized expected type against the normalized detected type. -/
def typeAliases : List (String × List String) :=
  [("castecertificate", ["castecertificate", "caste", "othercastecertificate"]),
   ("fir", ["fir"]),
   ("aadhaar", ["aadhaar", "aadhar"]),
   ("medical", ["medical"]),
   ("bankpassbook", ["bankpassbook", "bank"]),
   ("marriagecertificate", ["marriagecertificate", "marriage"]),
   ("scstcertificate", ["scstcertificate", "scheduledcaste", "scheduledtribe"]),
   ("othercastecertificate", ["othercastecertificate", "sebc", "obc", "castecertificate"]),
   ("addressproof", ["addressproof", "electricbill", "utilitybill"])]

/-- Type comparison of verifyDocumentType: exact equality of the
normalized names, or membership of the normalized detected name in the
alias list of the normalized expected name (the fallback alias list is the
singleton of the normalized expected name itself). -/
def typesMatch (expectedType detectedType : String) : Bool :=
  let ne := normalizeType expectedType
  let nd := normalizeType detectedType
  ne == nd ||
    (match typeAliases.find? (fun p => p.1 == ne) with
     | some p => p.2.contains nd
     | none => [ne].contains nd)

/-- Human-readable labels returned by getDocumentLabel; an unknown key is
returned unchanged. -/
def getDocumentLabel (docType : String) : String :=
  let labels : List (String × String) :=
    [("fir", "FIR (First Information Report)"),
     ("casteCertificate", "Caste Certificate"),
     ("castecertificate", "Caste Certificate"),
     ("aadhaar", "Aadhaar Card"),
     ("medical", "Medical Report"),
     ("bankPassbook", "Bank Passbook"),
     ("bankpassbook", "Bank Passbook"),
     ("marriageCertificate", "Marriage Certificate"),
     ("marriagecertificate", "Marriage Certificate"),
     ("scstCertificate", "SC/ST Caste Certificate"),
     ("scstcertificate", "SC/ST Caste Certificate"),
     ("otherCasteCertificate", "OBC/SEBC Caste Certificate"),
     ("othercastecertificate", "OBC/SEBC Caste Certificate"),
     ("addressProof", "Address Proof (Utility Bill)"),
     ("addressproof", "Address Proof (Utility Bill)")]
  match labels.find? (fun p => p.1 == docType) with
  | some p => p.2
  | none => docType

/-- Result object of verifyDocumentType; fields absent from a given return
object are modelled as none. -/
structure VerifyResult where
  isValid : Bool
  message : String
  verified : Option Bool := none
  skipped : Option Bool := none
  detectedType : Option String := none
  expectedType : Option String := none
  confidence : Option ℚ := none
  matchedKeywords : Option (List String) := none
  classification : Option ClassifyResult := none
deriving DecidableEq, Repr

/-- Image mime types the verifier sends to OCR. -/
def supportedImageTypes : List String := ["image/jpeg", "image/jpg", "image/png"]

/-- Threshold used on a confident type mismatch: the detected type's
configured minConfidenceScore, with the JavaScript or-default replacing a
missing configuration (and a zero score, which is falsy) by 0.15. -/
def effectiveMinConfidence (detectedType : String) : ℚ :=
  match DOCUMENT_KEYWORDS.find? (fun p => p.1 == detectedType) with
  | some p =>
    if p.2.minConfidenceScore = 0 then 15 / 100 else p.2.minConfidenceScore
  | none => 15 / 100

/-- Continuation of verifyDocumentType on successfully extracted text:
the insufficient-text check, the classification, the unknown-type check,
the type comparison, and the confidence-thresholded mismatch decision. -/
def verifyExtracted (expectedType : String) (extractedText : String) : VerifyResult :=
  if (jsTrim extractedText).length < 50 then
        { isValid := false,
          message := "Document appears to be empty, scanned, or has unreadable text. Please upload a filled " ++
            getDocumentLabel expectedType ++ " with readable text.",
          verified := some false }
      else
        let classification := classifyDocument extractedText
        if classification.detectedType == "unknown" then
          { isValid := false,
            message := "Could not identify this as a " ++
              getDocumentLabel expectedType ++ ". Please upload a valid " ++
              getDocumentLabel expectedType ++ " document.",
            verified := some false, classification := some classification }
        else if typesMatch expectedType classification.detectedType then
          { isValid := true, message := "Document verified successfully",
            verified := some true,
            detectedType := some classification.detectedType,
            confidence := some classification.confidence,
            matchedKeywords := some classification.matchedKeywords,
            classification := some classification }
        else
          if classification.confidence ≥ effectiveMinConfidence classification.detectedType then
            { isValid := false,
              message := "Invalid document: Expected " ++
                getDocumentLabel expectedType ++ " but detected " ++
                getDocumentLabel classification.detectedType ++
                ". Please upload the correct document.",
              verified := some false,
              detectedType := some classification.detectedType,
              expectedType := some expectedType,
              confidence := some classification.confidence,
              matchedKeywords := some classification.matchedKeywords,
              classification := some classification }
          else
            { isValid := true,
              message := "Document uploaded (verification confidence was low)",
              verified := some false, classification := some classification }

/-- Embedding of verifyDocumentType. Text extraction is an external
asynchronous call (pdf-parse or the Vision API); its outcome for the given
file is passed in as the extracted argument, where none models a null
return (extraction failure). Both supported branches of the source feed
the extracted text into the same continuation. -/
def verifyDocumentType (mimeType expectedType : String)
    (extracted : Option String) : VerifyResult :=
  if mimeType == "application/pdf" || supportedImageTypes.contains mimeType then
    match extracted with
    | none =>
      { isValid := false,
        message := "Cannot verify document. Please upload a clear, readable " ++
          getDocumentLabel expectedType ++ " in PDF or image format.",
        verified := some false, skipped := some false }
    | some extractedText => verifyExtracted expectedType extractedText
  else
    { isValid := true,
      message := "Document accepted (unsupported file type for verification)",
      skipped := some true }

/-- Embedding of documentController.uploadDocument. The Mongoose and
storage queries that precede verification are passed in as their outcomes
(grievanceFound, victimNotOwner, existingDoc); the persistent state
touched by the handler is the list of Document records and the list of
stored files, and the storage write plus Document.save of the success path
are modelled as appending one entry to each. The first component of the
result is the HTTP status code. -/
def uploadDocument (hasFile : Bool) (grievanceId documentType : Option String)
    (grievanceFound : Bool) (victimNotOwner : Bool) (existingDoc : Bool)
    (mimeType : String) (extracted : Option String)
    (docs files : List String) : Nat × List String × List String :=
  if !hasFile then (400, docs, files)
  else
    match grievanceId, documentType with
    | some gid, some dt =>
      if !grievanceFound then (404, docs, files)
      else if victimNotOwner then (403, docs, files)
      else if existingDoc then (400, docs, files)
      else
        let verificationResult := verifyDocumentType mimeType dt extracted
        if !verificationResult.isValid then (400, docs, files)
        else (201, docs ++ [gid ++ "/" ++ dt], files ++ [gid ++ "/" ++ dt])
    | _, _ => (400, docs, files)

/-- Sample extracted text used to exercise the verifier on a concrete
input: it matches two required and all six supportive aadhaar keywords and
no required keyword of any other type. -/
def sampleText : String :=
  "aadhaar uidai government of india address dob male female vid xx"

/-- Folding additions of mapped values starting from an accumulator equals
the accumulator plus the sum of the mapped list. -/
theorem foldl_add_eq_sum {α : Type} (f : α → ℚ) :
    ∀ (l : List α) (s : ℚ), l.foldl (fun acc a => acc + f a) s = s + (l.map f).sum := by
  intro l
  induction l with
  | nil => intro s; simp
  | cons x xs ih =>
    intro s
    simp only [List.foldl_cons, List.map_cons, List.sum_cons]
    rw [ih]
    ring

/-- C8: after every save of a FundAllocation the pre-save hook makes
amountRemaining equal sanctionedAmount minus amountUtilized, and status is
determined by utilization: allocated or sanctioned (by allocatedToOfficer)
when amountUtilized is 0, partially_utilized when it is nonzero and
amountRemaining is positive, fully_utilized when it is nonzero and
amountRemaining is not positive; utilizeFund saves through the same hook,
so its successful result satisfies the same invariant. -/
theorem fundAllocation_preSave_invariant (now : Nat) (a : FundAllocation) :
    (fundAllocationPreSave now a).amountRemaining =
      (fundAllocationPreSave now a).sanctionedAmount -
        (fundAllocationPreSave now a).amountUtilized ∧
    ((fundAllocationPreSave now a).amountUtilized = 0 →
      (fundAllocationPreSave now a).status =
        if (fundAllocationPreSave now a).allocatedToOfficer.isSome then "allocated"
        else "sanctioned") ∧
    ((fundAllocationPreSave now a).amountUtilized ≠ 0 →
      0 < (fundAllocationPreSave now a).amountRemaining →
      (fundAllocationPreSave now a).status = "partially_utilized") ∧
    ((fundAllocationPreSave now a).amountUtilized ≠ 0 →
      (fundAllocationPreSave now a).amountRemaining ≤ 0 →
      (fundAllocationPreSave now a).status = "fully_utilized") ∧
    (∀ cid gid amt b, utilizeFund a cid gid amt now = (Except.ok (), b) →
      b.amountRemaining = b.sanctionedAmount - b.amountUtilized) := by
  refine ⟨rfl, ?_, ?_, ?_, ?_⟩
  · intro h
    simp only [fundAllocationPreSave] at h ⊢
    simp [h]
  · intro h hpos
    simp only [fundAllocationPreSave] at h hpos ⊢
    simp [h, hpos]
  · intro h hnonpos
    simp only [fundAllocationPreSave] at h hnonpos ⊢
    rw [if_neg h, if_neg (not_lt.mpr hnonpos)]
  · intro cid gid amt b hb
    unfold utilizeFund at hb
    by_cases hcmp : amt > a.amountRemaining
    · simp [hcmp] at hb
    · simp only [if_neg hcmp, Prod.mk.injEq] at hb
      rw [← hb.2]
      rfl

/-- Concrete instance of the C8 invariant: a fresh allocation of 1000 with
an assigned officer saves with remaining 1000 and status allocated. -/
theorem fundAllocation_preSave_invariant_witness :
    (fundAllocationPreSave 5
      { source := "Central Fund", sanctionNumber := "SN1",
        sanctionedAmount := 1000, amountUtilized := 0, amountRemaining := 0,
        allocatedToOfficer := some "officer1", linkedCases := [],
        status := "sanctioned", district := "Pune", state := "Maharashtra",
        updatedAt := 0 }).amountRemaining =
      (fundAllocationPreSave 5
        { source := "Central Fund", sanctionNumber := "SN1",
          sanctionedAmount := 1000, amountUtilized := 0, amountRemaining := 0,
          allocatedToOfficer := some "officer1", linkedCases := [],
          status := "sanctioned", district := "Pune", state := "Maharashtra",
          updatedAt := 0 }).sanctionedAmount -
        (fundAllocationPreSave 5
          { source := "Central Fund", sanctionNumber := "SN1",
            sanctionedAmount := 1000, amountUtilized := 0, amountRemaining := 0,
            allocatedToOfficer := some "officer1", linkedCases := [],
            status := "sanctioned", district := "Pune", state := "Maharashtra",
            updatedAt := 0 }).amountUtilized ∧
    (fundAllocationPreSave 5
      { source := "Central Fund", sanctionNumber := "SN1",
        sanctionedAmount := 1000, amountUtilized := 0, amountRemaining := 0,
        allocatedToOfficer := some "officer1", linkedCases := [],
        status := "sanctioned", district := "Pune", state := "Maharashtra",
        updatedAt := 0 }).status = "allocated" :=
  ⟨(fundAllocation_preSave_invariant 5
      { source := "Central Fund", sanctionNumber := "SN1",
        sanctionedAmount := 1000, amountUtilized := 0, amountRemaining := 0,
        allocatedToOfficer := some "officer1", linkedCases := [],
        status := "sanctioned", district := "Pune", state := "Maharashtra",
        updatedAt := 0 }).1,
   (fundAllocation_preSave_invariant 5
      { source := "Central Fund", sanctionNumber := "SN1",
        sanctionedAmount := 1000, amountUtilized := 0, amountRemaining := 0,
        allocatedToOfficer := some "officer1", linkedCases := [],
        status := "sanctioned", district := "Pune", state := "Maharashtra",
        updatedAt := 0 }).2.1 (by decide)⟩

/-- C9: utilizeFund throws the insufficient-funds error exactly when the
requested amount exceeds the stored amountRemaining, and then the document
is unchanged; otherwise it succeeds, adds amount to amountUtilized, and
appends exactly one linkedCases entry carrying that amount. -/
theorem utilizeFund_spec (a : FundAllocation) (cid gid : String)
    (amt : ℚ) (now : Nat) :
    ((utilizeFund a cid gid amt now).1 =
        Except.error "Insufficient funds in this allocation" ↔
      a.amountRemaining < amt) ∧
    (a.amountRemaining < amt → (utilizeFund a cid gid amt now).2 = a) ∧
    (amt ≤ a.amountRemaining →
      (utilizeFund a cid gid amt now).1 = Except.ok () ∧
      (utilizeFund a cid gid amt now).2.amountUtilized =
        a.amountUtilized + amt ∧
      (utilizeFund a cid gid amt now).2.linkedCases =
        a.linkedCases ++
          [{ caseId := cid, grievanceId := gid,
             amountDisbursed := amt, disbursedAt := now }]) := by
  unfold utilizeFund
  by_cases hcmp : amt > a.amountRemaining
  · simp [hcmp, not_le.mpr hcmp]
  · have hle : amt ≤ a.amountRemaining := not_lt.mp hcmp
    refine ⟨?_, ?_, ?_⟩
    · simp [hcmp, not_lt.mp hcmp, not_lt_of_le hle]
    · intro hlt; exact absurd hlt (not_lt_of_le hle)
    · intro _
      refine ⟨by simp [hcmp], ?_, ?_⟩ <;> simp [hcmp, fundAllocationPreSave]

/-- Concrete instance of C9: utilizing 300 from an allocation with 500
remaining succeeds and records one disbursement of 300, while utilizing
600 fails with the insufficient-funds error. -/
theorem utilizeFund_spec_witness :
    (utilizeFund
      { source := "Central Fund", sanctionNumber := "SN2",
        sanctionedAmount := 1000, amountUtilized := 500, amountRemaining := 500,
        allocatedToOfficer := none, linkedCases := [],
        status := "partially_utilized", district := "Pune",
        state := "Maharashtra", updatedAt := 0 } "c1" "g1" 300 7).2.amountUtilized =
      500 + 300 ∧
    (utilizeFund
      { source := "Central Fund", sanctionNumber := "SN2",
        sanctionedAmount := 1000, amountUtilized := 500, amountRemaining := 500,
        allocatedToOfficer := none, linkedCases := [],
        status := "partially_utilized", district := "Pune",
        state := "Maharashtra", updatedAt := 0 } "c1" "g1" 600 7).2 =
      { source := "Central Fund", sanctionNumber := "SN2",
        sanctionedAmount := 1000, amountUtilized := 500, amountRemaining := 500,
        allocatedToOfficer := none, linkedCases := [],
        status := "partially_utilized", district := "Pune",
        state := "Maharashtra", updatedAt := 0 } :=
  ⟨((utilizeFund_spec
      { source := "Central Fund", sanctionNumber := "SN2",
        sanctionedAmount := 1000, amountUtilized := 500, amountRemaining := 500,
        allocatedToOfficer := none, linkedCases := [],
        status := "partially_utilized", district := "Pune",
        state := "Maharashtra", updatedAt := 0 } "c1" "g1" 300 7).2.2
      (by decide)).2.1,
   (utilizeFund_spec
      { source := "Central Fund", sanctionNumber := "SN2",
        sanctionedAmount := 1000, amountUtilized := 500, amountRemaining := 500,
        allocatedToOfficer := none, linkedCases := [],
        status := "partially_utilized", district := "Pune",
        state := "Maharashtra", updatedAt := 0 } "c1" "g1" 600 7).2.1
      (by decide)⟩

/-- C10: getFundStats reports totalSanctioned, totalUtilized and
totalRemaining as the sums of sanctionedAmount, amountUtilized and
amountRemaining over the allocations matched by the district/state filter,
and utilizationPercentage as the utilized-over-sanctioned ratio times 100
rounded to two decimals when totalSanctioned is positive and 0 otherwise. -/
theorem getFundStats_sums (district state : Option String)
    (all : List FundAllocation) :
    (getFundStats district state all).totalSanctioned =
      ((all.filter (matchesFilter district state)).map
        (fun a => a.sanctionedAmount)).sum ∧
    (getFundStats district state all).totalUtilized =
      ((all.filter (matchesFilter district state)).map
        (fun a => a.amountUtilized)).sum ∧
    (getFundStats district state all).totalRemaining =
      ((all.filter (matchesFilter district state)).map
        (fun a => a.amountRemaining)).sum ∧
    (getFundStats district state all).allocationsCount =
      (all.filter (matchesFilter district state)).length ∧
    (getFundStats district state all).utilizationPercentage =
      (if 0 < ((all.filter (matchesFilter district state)).map
          (fun a => a.sanctionedAmount)).sum then
        toFixed2
          (((all.filter (matchesFilter district state)).map
              (fun a => a.amountUtilized)).sum /
            ((all.filter (matchesFilter district state)).map
              (fun a => a.sanctionedAmount)).sum * 100)
      else 0) := by
  unfold getFundStats
  simp [foldl_add_eq_sum, zero_add]

/-- Sweeping a score list keeps an accumulator whose score never
decreases and ends at least as large as every score in the list. -/
theorem foldl_best_le (l : List (String × ℚ)) :
    ∀ init : String × ℚ,
      init.2 ≤ (l.foldl (fun acc p => if p.2 > acc.2 then p else acc) init).2 ∧
      ∀ p ∈ l, p.2 ≤ (l.foldl (fun acc p => if p.2 > acc.2 then p else acc) init).2 := by
  induction l with
  | nil => intro init; exact ⟨le_refl _, by simp⟩
  | cons q qs ih =>
    intro init
    simp only [List.foldl_cons]
    by_cases hq : q.2 > init.2
    · rw [if_pos hq]
      refine ⟨le_trans (le_of_lt hq) (ih q).1, fun p hp => ?_⟩
      rcases List.mem_cons.mp hp with h | h
      · rw [h]; exact (ih q).1
      · exact (ih q).2 p h
    · rw [if_neg hq]
      refine ⟨(ih init).1, fun p hp => ?_⟩
      rcases List.mem_cons.mp hp with h | h
      · rw [h]; exact le_trans (le_of_not_lt hq) (ih init).1
      · exact (ih init).2 p h

/-- The sweep of a score list returns either the initial accumulator or an
element of the list. -/
theorem foldl_best_mem (l : List (String × ℚ)) :
    ∀ init : String × ℚ,
      l.foldl (fun acc p => if p.2 > acc.2 then p else acc) init = init ∨
      l.foldl (fun acc p => if p.2 > acc.2 then p else acc) init ∈ l := by
  induction l with
  | nil => intro init; exact Or.inl rfl
  | cons q qs ih =>
    intro init
    simp only [List.foldl_cons]
    by_cases hq : q.2 > init.2
    · rw [if_pos hq]
      rcases ih q with h | h
      · exact Or.inr (by rw [h]; exact List.mem_cons_self q qs)
      · exact Or.inr (List.mem_cons_of_mem q h)
    · rw [if_neg hq]
      rcases ih init with h | h
      · exact Or.inl h
      · exact Or.inr (List.mem_cons_of_mem q h)

/-- When no score in the list strictly exceeds the initial accumulator's
score, the sweep returns the initial accumulator. -/
theorem foldl_best_stay (l : List (String × ℚ)) :
    ∀ init : String × ℚ, (∀ p ∈ l, ¬ init.2 < p.2) →
      l.foldl (fun acc p => if p.2 > acc.2 then p else acc) init = init := by
  induction l with
  | nil => intro init _; rfl
  | cons q qs ih =>
    intro init h
    simp only [List.foldl_cons]
    rw [if_neg (h q (List.mem_cons_self q qs))]
    exact ih init (fun p hp => h p (List.mem_cons_of_mem q hp))

/-- The stored score of every document type is nonnegative. -/
theorem typeScore_nonneg (text : String) (cfg : DocTypeConfig) :
    0 ≤ typeScore text cfg := by
  simp only [typeScore]
  split
  · split
    · next hmax => exact div_nonneg (by positivity) (le_of_lt hmax)
    · exact le_refl 0
  · exact le_refl 0

/-- The score-to-confidence computation of the classification loop agrees
with the confidence as the specification claim words it. -/
theorem typeScore_eq_specConfidence (text : String) (cfg : DocTypeConfig) :
    typeScore text cfg = specConfidence text cfg := by
  simp only [typeScore, specConfidence, requiredMatched, supportiveMatched]
  by_cases h : (cfg.required.filter (fun k => strIncludes text (lowerAscii k))).length = 0
  · simp [h]
  · have hpos : 0 < (cfg.required.filter (fun k => strIncludes text (lowerAscii k))).length :=
      Nat.pos_of_ne_zero h
    have hreq : 0 < cfg.required.length :=
      lt_of_lt_of_le hpos (List.length_filter_le _ _)
    have hone : (1 : ℚ) ≤ (cfg.required.length : ℚ) := by exact_mod_cast hreq
    have hsup : (0 : ℚ) ≤ (cfg.supportive.length : ℚ) := by positivity
    have hmax : (0 : ℚ) < 3 * (cfg.required.length : ℚ) + (cfg.supportive.length : ℚ) := by
      linarith
    rw [if_pos hpos, if_pos hmax, if_neg h]

/-- On text with content, the projections of classifyDocument are the
score list and the two components of the strictly-greatest sweep. -/
theorem classifyDocument_proj (text : String) (h : (jsTrim text).length ≠ 0) :
    (classifyDocument text).allScores = classifyScores text ∧
    (classifyDocument text).detectedType = (classifyBest text).1 ∧
    (classifyDocument text).confidence = (classifyBest text).2 := by
  unfold classifyDocument
  rw [if_neg h]
  exact ⟨rfl, rfl, rfl⟩

/-- C1: for text with content, the score list of classifyDocument carries,
for each type of DOCUMENT_KEYWORDS, exactly the claimed confidence (3 per
required match plus 1 per supportive match, over the maximal score, zeroed
without a required match); every stored score is nonnegative and at most
the returned confidence; when every stored score is 0 the result is the
unknown type with confidence 0, and when some score is positive the
returned type and confidence are an entry of the score list. -/
theorem classifyDocument_scoring (text : String) (h : (jsTrim text).length ≠ 0) :
    (classifyDocument text).allScores =
      DOCUMENT_KEYWORDS.map (fun p => (p.1, specConfidence text p.2)) ∧
    (∀ p ∈ (classifyDocument text).allScores, 0 ≤ p.2) ∧
    (∀ p ∈ (classifyDocument text).allScores,
      p.2 ≤ (classifyDocument text).confidence) ∧
    ((∀ p ∈ (classifyDocument text).allScores, p.2 = 0) →
      (classifyDocument text).detectedType = "unknown" ∧
      (classifyDocument text).confidence = 0) ∧
    ((∃ p ∈ (classifyDocument text).allScores, 0 < p.2) →
      ((classifyDocument text).detectedType, (classifyDocument text).confidence)
        ∈ (classifyDocument text).allScores) := by
  obtain ⟨hs, hd, hc⟩ := classifyDocument_proj text h
  have hbest : classifyBest text =
      (classifyScores text).foldl
        (fun acc p => if p.2 > acc.2 then p else acc) ("unknown", 0) := rfl
  refine ⟨?_, ?_, ?_, ?_, ?_⟩
  · rw [hs]
    unfold classifyScores
    have hfun : (fun (p : String × DocTypeConfig) => (p.1, typeScore text p.2)) =
        (fun p => (p.1, specConfidence text p.2)) := by
      funext p
      rw [typeScore_eq_specConfidence]
    rw [hfun]
  · intro p hp
    rw [hs] at hp
    rcases List.mem_map.mp hp with ⟨q, _, rfl⟩
    exact typeScore_nonneg text q.2
  · intro p hp
    rw [hs] at hp
    rw [hc, hbest]
    exact (foldl_best_le (classifyScores text) ("unknown", 0)).2 p hp
  · intro hz
    have hstay := foldl_best_stay (classifyScores text) ("unknown", 0)
      (fun p hp => by rw [hz p (hs ▸ hp)]; exact lt_irrefl 0)
    rw [hd, hc, hbest, hstay]
    exact ⟨rfl, rfl⟩
  · rintro ⟨p, hp, hppos⟩
    rw [hs] at hp
    rw [hd, hc, hs]
    rcases foldl_best_mem (classifyScores text) ("unknown", 0) with hinit | hmem
    · exfalso
      have hle := (foldl_best_le (classifyScores text) ("unknown", 0)).2 p hp
      rw [hinit] at hle
      exact absurd hppos (not_lt.mpr hle)
    · rw [hbest, Prod.mk.eta]
      exact hmem

/-- Concrete instance of C1 at the one-word text aadhaar, which has
content after trimming. -/
theorem classifyDocument_scoring_witness :
    (jsTrim "aadhaar").length ≠ 0 ∧
    ((classifyDocument "aadhaar").allScores =
      DOCUMENT_KEYWORDS.map (fun p => (p.1, specConfidence "aadhaar" p.2)) ∧
    (∀ p ∈ (classifyDocument "aadhaar").allScores, 0 ≤ p.2) ∧
    (∀ p ∈ (classifyDocument "aadhaar").allScores,
      p.2 ≤ (classifyDocument "aadhaar").confidence) ∧
    ((∀ p ∈ (classifyDocument "aadhaar").allScores, p.2 = 0) →
      (classifyDocument "aadhaar").detectedType = "unknown" ∧
      (classifyDocument "aadhaar").confidence = 0) ∧
    ((∃ p ∈ (classifyDocument "aadhaar").allScores, 0 < p.2) →
      ((classifyDocument "aadhaar").detectedType,
        (classifyDocument "aadhaar").confidence)
        ∈ (classifyDocument "aadhaar").allScores)) :=
  ⟨by decide, classifyDocument_scoring "aadhaar" (by decide)⟩

/-- C7: classifyDocument is a deterministic, stateless function of its
text argument: equal texts produce equal detectedType, confidence,
allScores and matchedKeywords, and the output of a call inside any
sequence of calls on other texts is the same standalone result, so no call
changes state observable by a later call. -/
theorem classifyDocument_deterministic (t₁ t₂ : String) (pre post : List String)
    (h : t₁ = t₂) :
    (classifyDocument t₁).detectedType = (classifyDocument t₂).detectedType ∧
    (classifyDocument t₁).confidence = (classifyDocument t₂).confidence ∧
    (classifyDocument t₁).allScores = (classifyDocument t₂).allScores ∧
    (classifyDocument t₁).matchedKeywords = (classifyDocument t₂).matchedKeywords ∧
    (pre ++ t₁ :: post).map classifyDocument =
      pre.map classifyDocument ++ classifyDocument t₂ :: post.map classifyDocument := by
  subst h
  exact ⟨rfl, rfl, rfl, rfl, by simp⟩

/-- Concrete instance of C7 with the text aadhaar interleaved between two
other calls. -/
theorem classifyDocument_deterministic_witness :
    (classifyDocument "aadhaar").detectedType = (classifyDocument "aadhaar").detectedType ∧
    (classifyDocument "aadhaar").confidence = (classifyDocument "aadhaar").confidence ∧
    (classifyDocument "aadhaar").allScores = (classifyDocument "aadhaar").allScores ∧
    (classifyDocument "aadhaar").matchedKeywords =
      (classifyDocument "aadhaar").matchedKeywords ∧
    (["first information report"] ++ "aadhaar" :: ["hospital"]).map classifyDocument =
      ["first information report"].map classifyDocument ++
        classifyDocument "aadhaar" :: ["hospital"].map classifyDocument :=
  classifyDocument_deterministic "aadhaar" "aadhaar"
    ["first information report"] ["hospital"] rfl

/-- C3: the expected and detected type names match exactly when their
normalized forms (lowercased, underscores and hyphens deleted) are equal
or the normalized detected name belongs to the alias list registered for
the normalized expected name; the listed examples hold and everything else
is a mismatch. -/
theorem typesMatch_spec (expectedType detectedType : String) :
    (typesMatch expectedType detectedType = true ↔
      (normalizeType expectedType = normalizeType detectedType ∨
        normalizeType detectedType ∈
          (((typeAliases.find? (fun p => p.1 == normalizeType expectedType)).map
            (fun p => p.2)).getD []))) ∧
    typesMatch "castecertificate" "caste" = true ∧
    typesMatch "castecertificate" "othercastecertificate" = true ∧
    typesMatch "aadhaar" "aadhar" = true ∧
    typesMatch "bankpassbook" "bank" = true ∧
    typesMatch "fir" "aadhaar" = false := by
  refine ⟨?_, by decide, by decide, by decide, by decide, by decide⟩
  unfold typesMatch
  cases hfind : typeAliases.find? (fun p => p.1 == normalizeType expectedType) with
  | none =>
    simp only [hfind, Option.map_none', Option.getD_none, List.not_mem_nil, or_false,
      Bool.or_eq_true, beq_iff_eq, List.elem_iff, List.mem_singleton]
    constructor
    · rintro (h | h)
      · exact h
      · exact h.symm
    · intro h
      exact Or.inl h
  | some p =>
    simp only [hfind, Option.map_some', Option.getD_some, Bool.or_eq_true, beq_iff_eq,
      List.elem_iff]

/-- C5: on a supported mime type whose extraction returns null, the
verifier rejects the document with the unreadable-document message, no
verification, and no classification in the result. -/
theorem verifyDocumentType_extraction_failure (mimeType expectedType : String)
    (hmt : (mimeType == "application/pdf" || supportedImageTypes.contains mimeType) = true) :
    verifyDocumentType mimeType expectedType none =
      { isValid := false,
        message := "Cannot verify document. Please upload a clear, readable " ++
          getDocumentLabel expectedType ++ " in PDF or image format.",
        verified := some false, skipped := some false } := by
  unfold verifyDocumentType
  rw [if_pos hmt]

/-- Concrete instance of C5: a PDF whose extraction fails is rejected. -/
theorem verifyDocumentType_extraction_failure_witness :
    ("application/pdf" == "application/pdf" ||
      supportedImageTypes.contains "application/pdf") = true ∧
    verifyDocumentType "application/pdf" "fir" none =
      { isValid := false,
        message := "Cannot verify document. Please upload a clear, readable " ++
          getDocumentLabel "fir" ++ " in PDF or image format.",
        verified := some false, skipped := some false } :=
  ⟨by decide, verifyDocumentType_extraction_failure "application/pdf" "fir" (by decide)⟩

/-- C6: on a mime type that is neither PDF nor a supported image, the
verifier accepts the file as skipped, and the result does not depend on
the extracted contents at all. -/
theorem verifyDocumentType_unsupported_skip (mimeType expectedType : String)
    (extracted other : Option String)
    (hmt : (mimeType == "application/pdf" || supportedImageTypes.contains mimeType) = false) :
    verifyDocumentType mimeType expectedType extracted =
      { isValid := true,
        message := "Document accepted (unsupported file type for verification)",
        skipped := some true } ∧
    verifyDocumentType mimeType expectedType other =
      verifyDocumentType mimeType expectedType extracted := by
  have h1 : ∀ e : Option String,
      verifyDocumentType mimeType expectedType e =
        { isValid := true,
          message := "Document accepted (unsupported file type for verification)",
          skipped := some true } := by
    intro e
    unfold verifyDocumentType
    rw [hmt]
    simp
  exact ⟨h1 extracted, (h1 other).trans (h1 extracted).symm⟩

/-- Concrete instance of C6: a plain-text upload is accepted with
skipped verification whatever its contents. -/
theorem verifyDocumentType_unsupported_skip_witness :
    ("text/plain" == "application/pdf" ||
      supportedImageTypes.contains "text/plain") = false ∧
    (verifyDocumentType "text/plain" "fir" none =
      { isValid := true,
        message := "Document accepted (unsupported file type for verification)",
        skipped := some true } ∧
    verifyDocumentType "text/plain" "fir" (some "first information report") =
      verifyDocumentType "text/plain" "fir" none) :=
  ⟨by decide, verifyDocumentType_unsupported_skip "text/plain" "fir" none
    (some "first information report") (by decide)⟩

/-- A type with no required match scores 0. -/
theorem typeScore_zero (text : String) (cfg : DocTypeConfig)
    (h : (requiredMatched text cfg).length = 0) :
    typeScore text cfg = 0 := by
  simp [typeScore, h]

/-- A type with a required match scores its weighted match count over its
maximal score. -/
theorem typeScore_eval (text : String) (cfg : DocTypeConfig) (r s : ℕ)
    (hr : (requiredMatched text cfg).length = r)
    (hs : (supportiveMatched text cfg).length = s)
    (hrpos : 0 < r)
    (hden : (0 : ℚ) < 3 * cfg.required.length + cfg.supportive.length) :
    typeScore text cfg =
      (3 * r + s : ℚ) / (3 * cfg.required.length + cfg.supportive.length) := by
  simp [typeScore, hr, hs, hrpos, hden]

/-- Concrete score list of the sample text: only aadhaar scores, with two
required and six supportive matches out of four and six keywords. -/
theorem classifyScores_sample :
    classifyScores sampleText =
      [("fir", 0), ("casteCertificate", 0), ("aadhaar", 2 / 3), ("medical", 0),
       ("bankPassbook", 0), ("marriageCertificate", 0), ("scstCertificate", 0),
       ("otherCasteCertificate", 0), ("addressProof", 0)] := by
  simp only [classifyScores, DOCUMENT_KEYWORDS, List.map_cons, List.map_nil,
    List.cons.injEq, Prod.mk.injEq, true_and, and_true]
  refine ⟨?_, ?_, ?_, ?_, ?_, ?_, ?_, ?_, ?_⟩
  · exact typeScore_zero _ _ (by decide)
  · exact typeScore_zero _ _ (by decide)
  · rw [typeScore_eval sampleText _ 2 6 (by decide) (by decide) (by decide)
      (by norm_num)]
    norm_num
  · exact typeScore_zero _ _ (by decide)
  · exact typeScore_zero _ _ (by decide)
  · exact typeScore_zero _ _ (by decide)
  · exact typeScore_zero _ _ (by decide)
  · exact typeScore_zero _ _ (by decide)
  · exact typeScore_zero _ _ (by decide)

/-- The sweep of the sample-text scores selects aadhaar at confidence
two thirds. -/
theorem classifyBest_sample : classifyBest sampleText = ("aadhaar", 2 / 3) := by
  rw [classifyBest, classifyScores_sample]
  norm_num

/-- The sample text classifies to aadhaar with confidence two thirds. -/
theorem classifyDocument_sample :
    (classifyDocument sampleText).detectedType = "aadhaar" ∧
    (classifyDocument sampleText).confidence = 2 / 3 := by
  obtain ⟨_, hd, hc⟩ := classifyDocument_proj sampleText (by decide)
  rw [hd, hc, classifyBest_sample]
  exact ⟨rfl, rfl⟩

/-- C2: on a supported mime type, extracted text of at least 50 trimmed
characters, a known detected type, and a type mismatch after
normalization and aliasing, the verifier rejects (isValid false) exactly
when the classification confidence reaches the effective
minimum confidence, and below that threshold it accepts with isValid true
and verified false. -/
theorem verifyDocumentType_mismatch_threshold (mimeType expectedType t : String)
    (hmt : (mimeType == "application/pdf" || supportedImageTypes.contains mimeType) = true)
    (hlen : ¬ (jsTrim t).length < 50)
    (hknown : (classifyDocument t).detectedType ≠ "unknown")
    (hmm : typesMatch expectedType (classifyDocument t).detectedType = false) :
    ((verifyDocumentType mimeType expectedType (some t)).isValid = false ↔
      effectiveMinConfidence (classifyDocument t).detectedType ≤
        (classifyDocument t).confidence) ∧
    ((classifyDocument t).confidence <
        effectiveMinConfidence (classifyDocument t).detectedType →
      (verifyDocumentType mimeType expectedType (some t)).isValid = true ∧
      (verifyDocumentType mimeType expectedType (some t)).verified = some false) := by
  have hbeq : ((classifyDocument t).detectedType == "unknown") = false :=
    beq_eq_false_iff_ne.mpr hknown
  have hsome : verifyDocumentType mimeType expectedType (some t) =
      verifyExtracted expectedType t := by
    unfold verifyDocumentType
    rw [if_pos hmt]
  rw [hsome]
  simp only [verifyExtracted]
  rw [if_neg hlen, hbeq, if_neg Bool.false_ne_true, hmm, if_neg Bool.false_ne_true]
  by_cases hconf : effectiveMinConfidence (classifyDocument t).detectedType ≤
      (classifyDocument t).confidence
  · rw [if_pos hconf]
    exact ⟨⟨fun _ => hconf, fun _ => rfl⟩, fun hlt => absurd hconf (not_le.mpr hlt)⟩
  · rw [if_neg hconf]
    refine ⟨⟨fun hh => ?_, fun hle => absurd hle hconf⟩, fun _ => ⟨rfl, rfl⟩⟩
    simp at hh

/-- Concrete instance of C2: the sample text is detected as aadhaar at
confidence two thirds while fir is expected, the types mismatch, the
confidence reaches the aadhaar threshold 0.15, and the upload is
rejected. -/
theorem verifyDocumentType_mismatch_threshold_witness :
    ("application/pdf" == "application/pdf" ||
      supportedImageTypes.contains "application/pdf") = true ∧
    (¬ (jsTrim sampleText).length < 50) ∧
    (classifyDocument sampleText).detectedType ≠ "unknown" ∧
    typesMatch "fir" (classifyDocument sampleText).detectedType = false ∧
    (((verifyDocumentType "application/pdf" "fir" (some sampleText)).isValid = false ↔
      effectiveMinConfidence (classifyDocument sampleText).detectedType ≤
        (classifyDocument sampleText).confidence) ∧
    ((classifyDocument sampleText).confidence <
        effectiveMinConfidence (classifyDocument sampleText).detectedType →
      (verifyDocumentType "application/pdf" "fir" (some sampleText)).isValid = true ∧
      (verifyDocumentType "application/pdf" "fir" (some sampleText)).verified =
        some false)) :=
  ⟨by decide, by decide,
   by rw [classifyDocument_sample.1]; decide,
   by rw [classifyDocument_sample.1]; decide,
   verifyDocumentType_mismatch_threshold "application/pdf" "fir" sampleText
     (by decide) (by decide)
     (by rw [classifyDocument_sample.1]; decide)
     (by rw [classifyDocument_sample.1]; decide)⟩

/-- C4: uploadDocument performs verification before any write: when the
pre-verification checks pass and verifyDocumentType returns isValid false
the handler answers 400 and the document list and stored files are
unchanged, and any call that changes the state reached the success path,
which requires isValid true and answers 201. -/
theorem uploadDocument_verification_gate (gid dt mimeType : String)
    (extracted : Option String) (docs files : List String)
    (hasFile : Bool) (grievanceId documentType : Option String)
    (grievanceFound victimNotOwner existingDoc : Bool)
    (mt : String) (ext : Option String) (docs2 files2 : List String)
    (hv : (verifyDocumentType mimeType dt extracted).isValid = false)
    (hchanged : (uploadDocument hasFile grievanceId documentType grievanceFound
        victimNotOwner existingDoc mt ext docs2 files2).2 ≠ (docs2, files2)) :
    uploadDocument true (some gid) (some dt) true false false mimeType
        extracted docs files = (400, docs, files) ∧
    (uploadDocument hasFile grievanceId documentType grievanceFound
        victimNotOwner existingDoc mt ext docs2 files2).1 = 201 ∧
    grievanceId.isSome = true ∧
    documentType.isSome = true ∧
    (verifyDocumentType mt (documentType.getD "") ext).isValid = true := by
  constructor
  · simp [uploadDocument, hv]
  · cases hasFile with
    | false => exact absurd rfl hchanged
    | true =>
      cases grievanceId with
      | none => exact absurd rfl hchanged
      | some g =>
        cases documentType with
        | none => exact absurd rfl hchanged
        | some d =>
          cases grievanceFound with
          | false => exact absurd rfl hchanged
          | true =>
            cases victimNotOwner with
            | true => exact absurd rfl hchanged
            | false =>
              cases existingDoc with
              | true => exact absurd rfl hchanged
              | false =>
                cases hvv : (verifyDocumentType mt d ext).isValid with
                | false =>
                  exfalso
                  apply hchanged
                  simp [uploadDocument, hvv]
                | true =>
                  refine ⟨?_, rfl, rfl, ?_⟩
                  · simp [uploadDocument, hvv]
                  · simpa using hvv

/-- Concrete instance of C4: a PDF that fails extraction is rejected with
400 and no state change, while an upload that does change the state went
through a verification that returned isValid true and answered 201. -/
theorem uploadDocument_verification_gate_witness :
    uploadDocument true (some "g1") (some "fir") true false false
        "application/pdf" none [] [] = (400, [], []) ∧
    (uploadDocument true (some "g2") (some "aadhaar") true false false
        "text/plain" none [] []).1 = 201 ∧
    (some "g2").isSome = true ∧
    (some "aadhaar").isSome = true ∧
    (verifyDocumentType "text/plain" ((some "aadhaar").getD "") none).isValid = true :=
  uploadDocument_verification_gate "g1" "fir" "application/pdf" none [] []
    true (some "g2") (some "aadhaar") true false false "text/plain" none [] []
    (by decide) (by decide)

end NyayaSetu
